import Mathlib

/-!
Verification of the EXIF-orientation fixture generator
(`create_exif_test_images.py`).

The development shallowly embeds the four components of the script:
the asymmetric raster generator (`create_asymmetric_image`), the EXIF
APP1 segment builder (`create_minimal_exif_with_orientation`), the JPEG
segment embedder (`embed_exif_in_jpeg`) and the fixture suite loop of
`main` (`mainFixtures`).  Bytes are natural numbers below 256; Python's
`struct.pack` is embedded by explicit little/big-endian byte splitting,
with its `struct.error` on out-of-range values modelled as `Option`;
a raised `ValueError` is modelled as `Except.error` carrying the
exception message.
-/

namespace ExifFixtures

/-- A byte, modelled as a natural number (all definitions below only
produce values below 256). -/
abbrev Byte := Nat

/-- `struct.pack("<H", n)` for an in-range value: two bytes,
little-endian. -/
def packLEu16 (n : Nat) : List Byte := [n % 256, n / 256 % 256]

/-- `struct.pack("<I", n)` for an in-range value: four bytes,
little-endian. -/
def packLEu32 (n : Nat) : List Byte :=
  [n % 256, n / 256 % 256, n / 65536 % 256, n / 16777216 % 256]

/-- `struct.pack(">H", n)` for an in-range value: two bytes,
big-endian. -/
def packBEu16 (n : Nat) : List Byte := [n / 256 % 256, n % 256]

/-- `struct.pack("<H", n)` applied to an arbitrary Python integer:
raises `struct.error` (here `none`) unless `0 ≤ n < 2^16`. -/
def packLEu16Checked (n : Int) : Option (List Byte) :=
  if 0 ≤ n ∧ n < 65536 then some (packLEu16 n.toNat) else none

/-- `create_minimal_exif_with_orientation(orientation)`: a minimal EXIF
APP1 segment holding exactly one orientation tag.  The only fallible
step in the source is `struct.pack("<HH", orientation, 0)`, which
raises for orientations outside the unsigned 16-bit range; all other
packs are applied to in-range constants. -/
def create_minimal_exif_with_orientation (orientation : Int) :
    Option (List Byte) :=
  (packLEu16Checked orientation).map (fun valueBytes =>
    -- TIFF header (little-endian): b"II", magic 42, offset to first IFD
    let tiff_header : List Byte := [73, 73] ++ packLEu16 42 ++ packLEu32 8
    -- IFD0 with one entry: count, tag 0x0112, type SHORT, count 1,
    -- value padded to 4 bytes, then next-IFD offset 0
    let ifd : List Byte :=
      packLEu16 1 ++
        packLEu16 0x0112 ++ packLEu16 3 ++ packLEu32 1 ++
        (valueBytes ++ packLEu16 0) ++
        packLEu32 0
    let tiff_data := tiff_header ++ ifd
    -- b"Exif\x00\x00"
    let exif_header : List Byte := [69, 120, 105, 102, 0, 0]
    let app1_data := exif_header ++ tiff_data
    let app1_length := app1_data.length + 2
    [0xff, 0xe1] ++ packBEu16 app1_length ++ app1_data)

/-- The JPEG Start-Of-Image marker `b"\xff\xd8"`. -/
def SOI : List Byte := [0xff, 0xd8]

/-- `embed_exif_in_jpeg(jpeg_bytes, exif_segment)`: insert the APP1
segment right after the SOI marker; raise `ValueError` when the stream
does not begin with SOI. -/
def embed_exif_in_jpeg (jpeg_bytes exif_segment : List Byte) :
    Except String (List Byte) :=
  if jpeg_bytes.take 2 ≠ SOI then Except.error "Not a valid JPEG file"
  else Except.ok (jpeg_bytes.take 2 ++ exif_segment ++ jpeg_bytes.drop 2)

/-- PIL's `img.putpixel(p, c)`: point update of the pixel map. -/
def putpixel (img : Nat × Nat → Nat × Nat × Nat) (p : Nat × Nat)
    (c : Nat × Nat × Nat) : Nat × Nat → Nat × Nat × Nat :=
  fun q => if q = p then c else img q

/-- `create_asymmetric_image()`: a 40×20 white canvas, then three
imperative region fills (red square, blue strip, green strip) exactly
in the source's loop order. -/
def create_asymmetric_image : Nat × Nat → Nat × Nat × Nat :=
  let img0 : Nat × Nat → Nat × Nat × Nat := fun _ => (255, 255, 255)
  -- Red square in top-left (10x10)
  let img1 := (List.range 10).foldl
    (fun img x => (List.range 10).foldl
      (fun img y => putpixel img (x, y) (255, 0, 0)) img) img0
  -- Blue strip on right edge (last 5 columns)
  let img2 := (List.range' 35 5).foldl
    (fun img x => (List.range 20).foldl
      (fun img y => putpixel img (x, y) (0, 0, 255)) img) img1
  -- Green strip on bottom edge (last 5 rows, excluding blue area)
  (List.range 35).foldl
    (fun img x => (List.range' 15 5).foldl
      (fun img y => putpixel img (x, y) (0, 255, 0)) img) img2

/-- The `orientations` dict of `main`, in its (insertion-preserving)
iteration order. -/
def orientations : List (Int × String) :=
  [(1, "normal"), (2, "flip_horizontal"), (3, "rotate_180"),
   (4, "flip_vertical"), (5, "transpose"), (6, "rotate_90_cw"),
   (7, "transverse"), (8, "rotate_270_cw")]

/-- The f-string `f"exif_orientation_{orientation}_{name}.jpg"`. -/
def fixtureFilename (orientation : Int) (name : String) : String :=
  "exif_orientation_" ++ toString orientation ++ "_" ++ name ++ ".jpg"

/-- One loop body of `main`: build the segment, embed it, and pair the
result with its file name.  A `struct.error` from the builder or the
`ValueError` from the embedder propagates. -/
def buildFixture (base_jpeg : List Byte) (orientation : Int)
    (name : String) : Except String (String × List Byte) := do
  let exif_segment ←
    match create_minimal_exif_with_orientation orientation with
    | some s => Except.ok s
    | none => Except.error "struct.error"
  let jpeg_with_exif ← embed_exif_in_jpeg base_jpeg exif_segment
  pure (fixtureFilename orientation name, jpeg_with_exif)

/-- The `for` loop of `main` over a list of (orientation, name) pairs:
an exception in any iteration propagates and aborts the remainder. -/
def buildAll (base_jpeg : List Byte) :
    List (Int × String) → Except String (List (String × List Byte))
  | [] => Except.ok []
  | p :: ps => do
      let f ← buildFixture base_jpeg p.1 p.2
      let rest ← buildAll base_jpeg ps
      pure (f :: rest)

/-- The fixture outputs of `main`, as (file name, bytes) pairs: the
eight EXIF-bearing fixtures in dict order followed by the un-embedded
baseline written as `exif_orientation_none.jpg`.  The baseline bytes
`base_jpeg` stand for the external JPEG encoder's output, which `main`
produces once and reuses. -/
def mainFixtures (base_jpeg : List Byte) :
    Except String (List (String × List Byte)) := do
  let withExif ← buildAll base_jpeg orientations
  pure (withExif ++ [("exif_orientation_none.jpg", base_jpeg)])

/-- Read two bytes at offset `i` of a byte list as a big-endian 16-bit
integer (the APP1 length field convention). -/
def readU16BE (l : List Byte) (i : Nat) : Nat :=
  256 * l.getD i 0 + l.getD (i + 1) 0

/-- Read two bytes at offset `i` of a byte list as a little-endian
16-bit integer (the TIFF "II" value convention). -/
def readU16LE (l : List Byte) (i : Nat) : Nat :=
  l.getD i 0 + 256 * l.getD (i + 1) 0

/-- The pixel colours claimed by the specification for the 40×20
raster, stated independently of the generator. -/
def claimedColor (x y : Nat) : Nat × Nat × Nat :=
  if x < 10 ∧ y < 10 then (255, 0, 0)
  else if 35 ≤ x then (0, 0, 255)
  else if x < 35 ∧ 15 ≤ y then (0, 255, 0)
  else (255, 255, 255)

/-! ### Helper lemmas -/

/-- Closed form of the builder for every Python integer: a segment is
produced exactly for unsigned-16-bit orientations, with the value
packed little-endian into the 4-byte value slot. -/
lemma create_minimal_exif_eq (n : Int) :
    create_minimal_exif_with_orientation n =
      if 0 ≤ n ∧ n < 65536 then
        some ([0xff, 0xe1, 0, 34, 69, 120, 105, 102, 0, 0,
               73, 73, 42, 0, 8, 0, 0, 0,
               1, 0, 0x12, 0x01, 3, 0, 1, 0, 0, 0,
               n.toNat % 256, n.toNat / 256 % 256, 0, 0,
               0, 0, 0, 0])
      else none := by
  unfold create_minimal_exif_with_orientation packLEu16Checked
  split
  · simp [packLEu16, packLEu32, packBEu16]
  · rfl

/-- A stream whose 2-byte prefix is the SOI marker is SOI followed by a
tail. -/
lemma exists_tail_of_take2_soi (l : List Byte) (h : l.take 2 = SOI) :
    ∃ t, l = 0xff :: 0xd8 :: t := by
  rcases l with _ | ⟨a, _ | ⟨b, t⟩⟩
  · simp [SOI] at h
  · simp [SOI] at h
  · simp [SOI] at h
    exact ⟨t, by simp [h.1, h.2]⟩

/-- On a stream beginning with SOI, embedding is the pure insertion at
offset 2. -/
lemma embed_eq_of_soi (stream seg : List Byte) (h : stream.take 2 = SOI) :
    embed_exif_in_jpeg stream seg =
      Except.ok (SOI ++ seg ++ stream.drop 2) := by
  obtain ⟨t, rfl⟩ := exists_tail_of_take2_soi stream h
  rfl

/-- One row fill `for y in ys: putpixel((x, y), c)`: the pixel map is
updated exactly on column `x` at the rows of `ys`. -/
lemma foldl_putpixel_row (x : Nat) (ys : List Nat) (c : Nat × Nat × Nat)
    (img : Nat × Nat → Nat × Nat × Nat) (q : Nat × Nat) :
    (ys.foldl (fun im y => putpixel im (x, y) c) img) q =
      if q.1 = x ∧ q.2 ∈ ys then c else img q := by
  induction ys generalizing img with
  | nil => simp
  | cons y ys ih =>
      rw [List.foldl_cons, ih]
      by_cases h1 : q.1 = x
      · by_cases h3 : q.2 ∈ ys
        · simp [h1, h3]
        · by_cases h2 : q.2 = y <;>
            simp [h1, h2, h3, putpixel, Prod.ext_iff]
      · simp [h1, putpixel, Prod.ext_iff]

/-- One region fill `for x in xs: for y in ys: putpixel((x, y), c)`:
the pixel map is updated exactly on the rectangle `xs × ys`. -/
lemma foldl_putpixel_block (xs ys : List Nat) (c : Nat × Nat × Nat)
    (img : Nat × Nat → Nat × Nat × Nat) (q : Nat × Nat) :
    (xs.foldl (fun im x => ys.foldl
        (fun im2 y => putpixel im2 (x, y) c) im) img) q =
      if q.1 ∈ xs ∧ q.2 ∈ ys then c else img q := by
  induction xs generalizing img with
  | nil => simp
  | cons x xs ih =>
      rw [List.foldl_cons, ih, foldl_putpixel_row]
      by_cases h1 : q.1 ∈ xs
      · by_cases h3 : q.2 ∈ ys <;> simp [h1, h3]
      · by_cases h2 : q.1 = x <;> by_cases h3 : q.2 ∈ ys <;>
          simp [h1, h2, h3]

/-! ### Claims -/

/-- Claim C1: for every orientation n in 1..8,
`create_minimal_exif_with_orientation` returns exactly the 36-byte
sequence FF E1, 00 22, "Exif\0\0", "II", 2A 00, 08 00 00 00, 01 00,
12 01, 03 00, 01 00 00 00, the 4-byte value field holding n
little-endian in its first two bytes and zero in the last two, then
00 00 00 00. -/
theorem c1_segment_bytes (n : Int) (h1 : 1 ≤ n) (h2 : n ≤ 8) :
    create_minimal_exif_with_orientation n =
      some ([0xff, 0xe1, 0x00, 0x22, 0x45, 0x78, 0x69, 0x66, 0x00, 0x00,
             0x49, 0x49, 0x2a, 0x00, 0x08, 0x00, 0x00, 0x00,
             0x01, 0x00, 0x12, 0x01, 0x03, 0x00, 0x01, 0x00, 0x00, 0x00,
             n.toNat, 0x00, 0x00, 0x00,
             0x00, 0x00, 0x00, 0x00]) := by
  interval_cases n <;> rfl

/-- Witness for C1 at orientation 6. -/
theorem c1_segment_bytes_witness :
    create_minimal_exif_with_orientation 6 =
      some ([0xff, 0xe1, 0x00, 0x22, 0x45, 0x78, 0x69, 0x66, 0x00, 0x00,
             0x49, 0x49, 0x2a, 0x00, 0x08, 0x00, 0x00, 0x00,
             0x01, 0x00, 0x12, 0x01, 0x03, 0x00, 0x01, 0x00, 0x00, 0x00,
             0x06, 0x00, 0x00, 0x00,
             0x00, 0x00, 0x00, 0x00]) :=
  c1_segment_bytes 6 (by decide) (by decide)

/-- Claim C2: on any stream whose first two bytes are FF D8,
`embed_exif_in_jpeg` returns FF D8, then the segment, then the rest of
the stream after its first two bytes; nothing else of the input is
inspected or altered. -/
theorem c2_embed_insertion (stream seg : List Byte)
    (h : stream.take 2 = SOI) :
    embed_exif_in_jpeg stream seg =
      Except.ok ([0xff, 0xd8] ++ seg ++ stream.drop 2) :=
  embed_eq_of_soi stream seg h

/-- Witness for C2 on a concrete 5-byte stream and 2-byte segment. -/
theorem c2_embed_insertion_witness :
    embed_exif_in_jpeg [0xff, 0xd8, 1, 2, 3] [9, 9] =
      Except.ok [0xff, 0xd8, 9, 9, 1, 2, 3] :=
  c2_embed_insertion [0xff, 0xd8, 1, 2, 3] [9, 9] (by decide)

/-- Claim C3: for every orientation in 1..8, the APP1 length field of
the built segment, read big-endian, equals the byte count of the whole
segment minus the 2-byte APP1 marker, i.e. every byte of the payload
including the length field itself. -/
theorem c3_app1_length (n : Int) (h1 : 1 ≤ n) (h2 : n ≤ 8) :
    (create_minimal_exif_with_orientation n).isSome ∧
      readU16BE ((create_minimal_exif_with_orientation n).getD []) 2 =
        ((create_minimal_exif_with_orientation n).getD []).length - 2 := by
  interval_cases n <;> exact ⟨rfl, rfl⟩

/-- Witness for C3 at orientation 1. -/
theorem c3_app1_length_witness :
    (create_minimal_exif_with_orientation 1).isSome ∧
      readU16BE ((create_minimal_exif_with_orientation 1).getD []) 2 =
        ((create_minimal_exif_with_orientation 1).getD []).length - 2 :=
  c3_app1_length 1 (by decide) (by decide)

/-- Claim C4 counterexample: the builder does not reject orientation 9;
it silently returns a full 36-byte segment carrying the value 9. -/
theorem c4_counterexample :
    create_minimal_exif_with_orientation 9 =
      some ([0xff, 0xe1, 0x00, 0x22, 0x45, 0x78, 0x69, 0x66, 0x00, 0x00,
             0x49, 0x49, 0x2a, 0x00, 0x08, 0x00, 0x00, 0x00,
             0x01, 0x00, 0x12, 0x01, 0x03, 0x00, 0x01, 0x00, 0x00, 0x00,
             0x09, 0x00, 0x00, 0x00,
             0x00, 0x00, 0x00, 0x00]) := by decide

/-- Claim C4 as amended: the builder performs no orientation
validation.  Every integer in the unsigned 16-bit range 0..65535 —
including 0 and 9, which lie outside {1..8} — yields a segment with
that value packed little-endian into the 4-byte value slot; only
values outside the 16-bit range fail, via the packer's range check,
not an orientation check. -/
theorem c4_no_validation (n : Int) :
    create_minimal_exif_with_orientation n =
      if 0 ≤ n ∧ n < 65536 then
        some ([0xff, 0xe1, 0, 34, 69, 120, 105, 102, 0, 0,
               73, 73, 42, 0, 8, 0, 0, 0,
               1, 0, 0x12, 0x01, 3, 0, 1, 0, 0, 0,
               n.toNat % 256, n.toNat / 256 % 256, 0, 0,
               0, 0, 0, 0])
      else none :=
  create_minimal_exif_eq n

/-- Claim C5: embedding fails with the format-invalid error exactly
when the stream's first two bytes are not the SOI marker; the error
value carries no output bytes. -/
theorem c5_embed_error_iff (stream seg : List Byte) :
    embed_exif_in_jpeg stream seg = Except.error "Not a valid JPEG file" ↔
      stream.take 2 ≠ SOI := by
  unfold embed_exif_in_jpeg
  split <;> simp_all

/-- Claim C6: every pixel of the generated 40×20 raster has the colour
the specification assigns to its region — red for x<10 ∧ y<10, blue
for 35≤x, green for x<35 ∧ 15≤y, white elsewhere. -/
theorem c6_raster_regions :
    ∀ x < 40, ∀ y < 20, create_asymmetric_image (x, y) = claimedColor x y := by
  intro x hx y hy
  unfold create_asymmetric_image
  simp only [foldl_putpixel_block, List.mem_range, List.mem_range'_1]
  unfold claimedColor
  split_ifs <;> first | rfl | omega

/-- Witness for C6 at the corner pixel (0, 0). -/
theorem c6_raster_regions_witness :
    create_asymmetric_image (0, 0) = claimedColor 0 0 :=
  c6_raster_regions 0 (by decide) 0 (by decide)

/-- Claim C7: for orientation 6 embedded in any SOI-prefixed baseline,
the little-endian read of the value field at offset 30 of the fixture
yields 6, and the fixture's length is 2 + len(segment) +
(len(baseline) - 2). -/
theorem c7_orientation6_end_to_end (base : List Byte)
    (h : base.take 2 = SOI) :
    ∃ seg out, create_minimal_exif_with_orientation 6 = some seg ∧
      embed_exif_in_jpeg base seg = Except.ok out ∧
      readU16LE out 30 = 6 ∧
      out.length = 2 + seg.length + (base.length - 2) := by
  obtain ⟨t, rfl⟩ := exists_tail_of_take2_soi base h
  refine ⟨_, _, rfl, rfl, rfl, ?_⟩
  simp
  omega

/-- Witness for C7 on the 2-byte baseline consisting of SOI alone. -/
theorem c7_orientation6_end_to_end_witness :
    ∃ seg out, create_minimal_exif_with_orientation 6 = some seg ∧
      embed_exif_in_jpeg [0xff, 0xd8] seg = Except.ok out ∧
      readU16LE out 30 = 6 ∧
      out.length = 2 + seg.length + (([0xff, 0xd8] : List Byte).length - 2) :=
  c7_orientation6_end_to_end [0xff, 0xd8] (by decide)

/-- Claim C8: on an SOI-prefixed baseline the suite produces exactly
nine outputs, named for orientations 1..8 in ascending order followed
by the EXIF-free fixture, whose bytes are the baseline unchanged. -/
theorem c8_suite_outputs (base : List Byte) (h : base.take 2 = SOI) :
    ∃ l, mainFixtures base = Except.ok l ∧
      l.map Prod.fst =
        ["exif_orientation_1_normal.jpg",
         "exif_orientation_2_flip_horizontal.jpg",
         "exif_orientation_3_rotate_180.jpg",
         "exif_orientation_4_flip_vertical.jpg",
         "exif_orientation_5_transpose.jpg",
         "exif_orientation_6_rotate_90_cw.jpg",
         "exif_orientation_7_transverse.jpg",
         "exif_orientation_8_rotate_270_cw.jpg",
         "exif_orientation_none.jpg"] ∧
      l.getLast? = some ("exif_orientation_none.jpg", base) := by
  obtain ⟨t, rfl⟩ := exists_tail_of_take2_soi base h
  exact ⟨_, rfl, by rfl, by rfl⟩

/-- Witness for C8 on the 2-byte baseline consisting of SOI alone. -/
theorem c8_suite_outputs_witness :
    ∃ l, mainFixtures [0xff, 0xd8] = Except.ok l ∧
      l.map Prod.fst =
        ["exif_orientation_1_normal.jpg",
         "exif_orientation_2_flip_horizontal.jpg",
         "exif_orientation_3_rotate_180.jpg",
         "exif_orientation_4_flip_vertical.jpg",
         "exif_orientation_5_transpose.jpg",
         "exif_orientation_6_rotate_90_cw.jpg",
         "exif_orientation_7_transverse.jpg",
         "exif_orientation_8_rotate_270_cw.jpg",
         "exif_orientation_none.jpg"] ∧
      l.getLast? = some ("exif_orientation_none.jpg", [0xff, 0xd8]) :=
  c8_suite_outputs [0xff, 0xd8] (by decide)

/-- Claim C9 counterexample: on a baseline not starting with SOI the
suite aborts at the first fixture with the embedder's error and
produces no fixture at all — not even `exif_orientation_none.jpg`,
whose own construction needs no embedding — contradicting the claim
that a failure does not abort the remaining fixtures. -/
theorem c9_counterexample :
    mainFixtures [0, 0] = Except.error "Not a valid JPEG file" := by rfl

/-- Claim C9 as amended: the suite loop has no per-fixture error
isolation.  A failure while producing any fixture propagates and
aborts the whole suite, so no remaining fixture is produced. -/
theorem c9_failure_aborts (base : List Byte) (h : base.take 2 ≠ SOI) :
    mainFixtures base = Except.error "Not a valid JPEG file" := by
  have hembed : ∀ seg, embed_exif_in_jpeg base seg =
      Except.error "Not a valid JPEG file" := by
    intro seg
    unfold embed_exif_in_jpeg
    rw [if_pos h]
  simp only [mainFixtures, buildAll, orientations, buildFixture, hembed,
    create_minimal_exif_eq]
  rfl

/-- Witness for C9 (amended) on the empty baseline. -/
theorem c9_failure_aborts_witness :
    mainFixtures [] = Except.error "Not a valid JPEG file" :=
  c9_failure_aborts [] (by decide)

/-- Claim C10: on any stream shorter than two bytes the embedder's
2-byte prefix extraction is total, yields a short prefix that cannot
equal SOI, and embedding fails with the same format-invalid error. -/
theorem c10_short_stream (s seg : List Byte) (h : s.length < 2) :
    embed_exif_in_jpeg s seg = Except.error "Not a valid JPEG file" := by
  rcases s with _ | ⟨a, _ | ⟨b, t⟩⟩
  · rfl
  · simp [embed_exif_in_jpeg, SOI]
  · simp at h
    omega

/-- Witness for C10 on the empty stream and empty segment. -/
theorem c10_short_stream_witness :
    embed_exif_in_jpeg [] [] = Except.error "Not a valid JPEG file" :=
  c10_short_stream [] [] (by decide)

end ExifFixtures
